import Mathlib

/-!
Shallow embedding of the two core mechanisms of this repository:

* `src/pyclass_init.rs` — chained object initialization: `PyNativeTypeInitializer`
  and `PyClassInitializer` and their `into_new_object` allocation drivers, modelled
  as explicit state/trace-passing functions over a host-environment record.
* `src/pyo3-macros-backend/src/pyproto.rs` — protocol slot-table generation:
  `impl_proto_impl`, `impl_normal_methods` and `impl_proto_methods`, modelled as
  pure functions from declared method names and the detected host version to the
  emitted tables.

Collaborator code that the repository uses but that is not part of the two source
files (the `defs.rs` protocol catalog, `pycell.rs` borrow flags, the thread
checker / dict / weakref slot constructors, `method.rs` signature parsing) is
modelled from the specification; each such definition carries a doc comment
starting with the words Modelled from the spec.
-/

/-- Modelled from the spec: error classes produced by the allocation driver
(`PyErr::api_call_failed` for a null result from the host allocator or
constructor, and `PyTypeError::new_err(msg)` for the missing-constructor case);
`PyErr` itself lives outside the two source files. -/
inductive PyErrKind where
  | apiCallFailed
  | typeError (msg : String)
deriving DecidableEq, Repr

/-- Modelled from the spec: the Borrow-State Cell value (`pycell::BorrowFlag`,
not under the two source files); only the `UNUSED` initial value is consumed by
`pyclass_init.rs`. -/
structure BorrowFlag where
  flag : Nat
deriving DecidableEq, Repr

def BorrowFlag.UNUSED : BorrowFlag := ⟨0⟩

/-- Modelled from the spec: the state produced by `ThreadChecker::new()` is a
freshly initialized thread checker; a `touched` state exists only to make
freshness a non-trivial observation. -/
inductive ThreadCheckerState where
  | fresh
  | touched
deriving DecidableEq, Repr

/-- Modelled from the spec: the dict placeholder produced by `Dict::new()` is
unset. -/
inductive DictSlot where
  | unset
  | filled
deriving DecidableEq, Repr

/-- Modelled from the spec: the weakref placeholder produced by `WeakRef::new()`
is unset. -/
inductive WeakRefSlot where
  | unset
  | filled
deriving DecidableEq, Repr

/-- Embeds `pycell::PyCellContents<T>` as written by
`PyClassInitializer::into_new_object`: the native value moved into the cell plus
the freshly initialized thread checker and the unset dict/weakref placeholders. -/
structure PyCellContents (V : Type) where
  value : V
  thread_checker : ThreadCheckerState
  dict : DictSlot
  weakref : WeakRefSlot
deriving DecidableEq, Repr

/-- Host-runtime environment consulted by `PyNativeTypeInitializer::into_new_object`:
whether `T::type_object_raw(py)` is `PyBaseObject_Type` (the universal object
root), whether the resolved allocator (`get_tp_alloc(subtype)` with the
`PyType_GenericAlloc` fallback) returns null, and the state of the `tp_new` slot
of the host-native base (`none` when the slot is absent, `some b` when present with
`b` recording whether its result is non-null). -/
structure HostEnv where
  baseIsObjectRoot : Bool
  allocReturnsNull : Bool
  tp_new : Option Bool
deriving DecidableEq, Repr

/-- Host-runtime entry points that `PyNativeTypeInitializer::into_new_object`
can invoke: the resolved allocator called as `alloc(subtype, 0)`, or the
`tp_new` slot of the host-native base called with null argument tuples. -/
inductive NativeCall where
  | allocCall
  | tpNewCall
deriving DecidableEq, Repr

/-- Embeds `PyNativeTypeInitializer::into_new_object` (src/src/pyclass_init.rs,
lines 36-74, non-limited-API build): when the native root is
`PyBaseObject_Type`, the resolved allocator is called and a null result becomes
an `api_call_failed` error; otherwise the `tp_new` slot of the base is called with no
arguments when present (null result again an `api_call_failed` error) and an
absent slot yields the `TypeError` with message `base type without tp_new`.
The first component records which host entry points were invoked. -/
def PyNativeTypeInitializer.into_new_object (env : HostEnv) :
    List NativeCall × Except PyErrKind Unit :=
  if env.baseIsObjectRoot then
    ([NativeCall.allocCall],
      if env.allocReturnsNull then Except.error PyErrKind.apiCallFailed
      else Except.ok ())
  else
    match env.tp_new with
    | some returnedNonNull =>
        ([NativeCall.tpNewCall],
          if returnedNonNull then Except.ok ()
          else Except.error PyErrKind.apiCallFailed)
    | none => ([], Except.error (PyErrKind.typeError "base type without tp_new"))

/-- An Initializer Chain: `nativeBase` embeds the terminal
`PyNativeTypeInitializer` and `pyclassInit init super_init` embeds the
`PyClassInitializer { init, super_init }` struct of src/src/pyclass_init.rs. -/
inductive PyClassInitializer (V : Type) where
  | nativeBase
  | pyclassInit (init : V) (super_init : PyClassInitializer V)
deriving DecidableEq, Repr

/-- A raw-memory write performed during chain allocation: a write of the
Borrow-State Cell (the single cell placed immediately after the host-native
root, `(*base).borrow_flag` in the source — every chain level casts `obj` to the
same `PartiallyInitializedPyCellBase<T::BaseNativeType>` and therefore targets
the same address) or a write of the contents cell of one level. -/
inductive WriteEvent (V : Type) where
  | borrow_flag (value : BorrowFlag)
  | contents (cell : PyCellContents V)
deriving DecidableEq, Repr

/-- Embeds `PyClassInitializer::into_new_object` (src/src/pyclass_init.rs,
lines 204-248): destructure the chain, recurse into `super_init` with the `?`
operator propagating errors, then write `Cell::new(BorrowFlag::UNUSED)` into the
borrow-flag cell and the `PyCellContents` for this level. The result is the
ordered list of raw writes performed together with the error, if any, that was
returned (`none` means `Ok(obj)` was returned). -/
def PyClassInitializer.into_new_object {V : Type} (env : HostEnv) :
    PyClassInitializer V → List (WriteEvent V) × Option PyErrKind
  | PyClassInitializer.nativeBase =>
      ([],
        match (PyNativeTypeInitializer.into_new_object env).2 with
        | Except.ok _ => none
        | Except.error e => some e)
  | PyClassInitializer.pyclassInit init super_init =>
      match PyClassInitializer.into_new_object env super_init with
      | (trace, some e) => (trace, some e)
      | (trace, none) =>
          (trace ++
            [WriteEvent.borrow_flag BorrowFlag.UNUSED,
             WriteEvent.contents
               ⟨init, ThreadCheckerState.fresh, DictSlot.unset, WeakRefSlot.unset⟩],
            none)

/-- The contents-cell writes of a trace, in the order they were performed
(root level first). -/
def contentsWrites {V : Type} (t : List (WriteEvent V)) : List (PyCellContents V) :=
  t.filterMap fun e =>
    match e with
    | WriteEvent.contents c => some c
    | WriteEvent.borrow_flag _ => none

/-- How many times the Borrow-State Cell was written during a trace. -/
def borrowFlagWrites {V : Type} (t : List (WriteEvent V)) : Nat :=
  (t.filter fun e =>
    match e with
    | WriteEvent.borrow_flag _ => true
    | WriteEvent.contents _ => false).length

/-- The native values supplied at construction, outermost base level first. -/
def levelValues {V : Type} : PyClassInitializer V → List V
  | PyClassInitializer.nativeBase => []
  | PyClassInitializer.pyclassInit init super_init => levelValues super_init ++ [init]

/-- Depth of a chain: the number of `#[pyclass]` levels above the host-native
root. -/
def chainDepth {V : Type} : PyClassInitializer V → Nat
  | PyClassInitializer.nativeBase => 0
  | PyClassInitializer.pyclassInit _ super_init => chainDepth super_init + 1

/-- Whether the host entry point consulted by the native initializer produced a
non-null pointer in the given environment. -/
def nonNullProduced (env : HostEnv) : Bool :=
  if env.baseIsObjectRoot then !env.allocReturnsNull
  else env.tp_new == some true

/-- Boolean success observation on an embedded `PyResult`. -/
def resultIsOk {ε α : Type} : Except ε α → Bool
  | Except.ok _ => true
  | Except.error _ => false

/-- Environment where the native root is the object root and allocation fails. -/
def envAllocFailed : HostEnv := ⟨true, true, none⟩

/-- Environment where the native root is the object root and allocation succeeds. -/
def envObjectRootOk : HostEnv := ⟨true, false, none⟩

/-- Environment with a non-object-root native base whose `tp_new` slot is absent. -/
def envNoTpNew : HostEnv := ⟨false, false, none⟩

/-- Concrete two-level Initializer Chain over natural-number payloads. -/
def chain2 : PyClassInitializer Nat :=
  PyClassInitializer.pyclassInit 1 (PyClassInitializer.pyclassInit 0 PyClassInitializer.nativeBase)


/-- Embeds `pyo3_build_config::PythonVersion` with its derived lexicographic
ordering on (major, minor), as compared against `PY39` in
src/pyo3-macros-backend/src/pyproto.rs lines 136-140. -/
structure PythonVersion where
  major : Nat
  minor : Nat
deriving DecidableEq, Repr

/-- Lexicographic version comparison used for the `build_config.version <= PY39`
test. -/
def PythonVersion.le (a b : PythonVersion) : Bool :=
  Nat.blt a.major b.major || (a.major == b.major && Nat.ble a.minor b.minor)

/-- The 3.9 cutoff constant from src/pyo3-macros-backend/src/pyproto.rs. -/
def PY39 : PythonVersion := ⟨3, 9⟩

/-- Modelled from the spec: a fixed-slot entry of the Protocol Catalog
(`defs::SlotDef`, in `defs.rs` which is not under the two source files): the
declared method names that jointly provide the slot, the fixed ABI slot
identifier, and the forwarding thunk emitted for it. -/
structure SlotDef where
  proto_names : List String
  slot : String
  slot_impl : String
deriving DecidableEq, Repr

/-- Modelled from the spec: a non-slot (ordinary method) entry of the Protocol
Catalog (`defs.rs`): the recognized method name and its coexist marker used for
`METH_COEXIST`. -/
structure PyMethodDefEntry where
  name : String
  can_coexist : Bool
deriving DecidableEq, Repr

/-- Modelled from the spec: one protocol family of the Protocol Catalog
(`defs::Proto` in `defs.rs`): the family name, the method names recognized by
`get_proto`, the non-slot method entries recognized by `get_method`, and the
static list of slot definitions consumed by `slot_defs`. -/
structure Proto where
  name : String
  proto_methods : List String
  py_methods : List PyMethodDefEntry
  slot_defs : List SlotDef
deriving DecidableEq, Repr

/-- Modelled from the spec: a declared method item of a `#[pyproto]` impl block
after signature parsing (`method.rs`, not under the two source files): its name
and whether the parsed function takes a self receiver (`FnType::Fn`). -/
structure DeclMethod where
  name : String
  has_receiver : Bool
deriving DecidableEq, Repr

/-- An emitted ordinary method-table descriptor: the method name and whether the
`METH_COEXIST` flag was attached. -/
structure MethodTableEntry where
  name : String
  coexist : Bool
deriving DecidableEq, Repr

/-- An emitted `PyType_Slot` entry: the fixed slot identifier and the thunk put
in its `pfunc` field. -/
structure SlotEntry where
  slot : String
  slot_impl : String
deriving DecidableEq, Repr

/-- The tables emitted for one type under one protocol family: `none` means the
corresponding array was not emitted at all, and `buffer_procs` records whether
the dedicated `PyBufferProcs` side-table was emitted. -/
structure ProtoOutput where
  methods_array : Option (List MethodTableEntry)
  slots_array : Option (List SlotEntry)
  buffer_procs : Bool
deriving DecidableEq, Repr

/-- Modelled from the spec: deduplication of slot definitions by slot id (the
spec requires a type to provide at most one source per slot); the first
matching definition in catalog order wins. -/
def dedupBySlot (seen : List String) : List SlotDef → List SlotDef
  | [] => []
  | d :: rest =>
      if seen.contains d.slot then dedupBySlot seen rest
      else d :: dedupBySlot (d.slot :: seen) rest

/-- Modelled from the spec: `Proto::slot_defs` (`defs.rs`): restrict the
static slot definitions of the family to those whose required method names were all
declared, keyed by slot id rather than by declaration order, deduplicated by
slot id. -/
def Proto.slotDefsFor (p : Proto) (method_names : List String) : List SlotDef :=
  dedupBySlot []
    (p.slot_defs.filter fun d => d.proto_names.all fun n => method_names.contains n)

/-- Embeds the per-item loop of `impl_proto_impl`
(src/pyo3-macros-backend/src/pyproto.rs lines 56-87): for each declared method,
a `get_proto` hit inserts the name into `method_names`, and a `get_method` hit
builds an ordinary method descriptor (with the coexist flag) provided the
parsed function takes a self receiver — otherwise the loop bails with the
receiver error. `impl_method_proto` and `FnSpec::parse` (outside the two source
files) are modelled as succeeding. -/
def collectMethods (proto : Proto) :
    List DeclMethod → Except String (List String × List MethodTableEntry)
  | [] => Except.ok ([], [])
  | met :: rest =>
      let namesHere : List String :=
        if proto.proto_methods.contains met.name then [met.name] else []
      match proto.py_methods.find? fun m => m.name == met.name with
      | some m =>
          if met.has_receiver then
            match collectMethods proto rest with
            | Except.error e => Except.error e
            | Except.ok (names, pys) =>
                Except.ok (namesHere ++ names, ⟨met.name, m.can_coexist⟩ :: pys)
          else Except.error "expected method with receiver for #[pyproto] method"
      | none =>
          match collectMethods proto rest with
          | Except.error e => Except.error e
          | Except.ok (names, pys) => Except.ok (namesHere ++ names, pys)

/-- Embeds `impl_normal_methods` (src/pyo3-macros-backend/src/pyproto.rs lines
97-119): an empty descriptor list emits no method-table array at all. -/
def impl_normal_methods (py_methods : List MethodTableEntry) :
    Option (List MethodTableEntry) :=
  if py_methods.isEmpty then none else some py_methods

/-- Embeds `impl_proto_methods` (src/pyo3-macros-backend/src/pyproto.rs lines
121-188): an empty `method_names` set emits nothing; the `PyBufferProcs`
side-table is prepared when the detected version is at or below the 3.9 cutoff
and the family is Buffer; the slot entries are built from `slot_defs`; and when
the slot entries are empty nothing is emitted (the prepared side-table is
dropped by the early return). Returns (slot array, side-table emitted). -/
def impl_proto_methods (v : PythonVersion) (proto : Proto)
    (method_names : List String) : Option (List SlotEntry) × Bool :=
  if method_names.isEmpty then (none, false)
  else
    let maybe_buffer : Bool := PythonVersion.le v PY39 && proto.name == "Buffer"
    let tokens : List SlotEntry :=
      (proto.slotDefsFor method_names).map fun d => ⟨d.slot, d.slot_impl⟩
    if tokens.isEmpty then (none, false)
    else (some tokens, maybe_buffer)

/-- Embeds `impl_proto_impl` (src/pyo3-macros-backend/src/pyproto.rs lines
46-95), the body of `build_py_proto` after family recognition: collect the
declared methods against the catalog (propagating the receiver error, in which
case `build_py_proto` emits nothing) and assemble the emitted tables. -/
def impl_proto_impl (v : PythonVersion) (proto : Proto)
    (impls : List DeclMethod) : Except String ProtoOutput :=
  match collectMethods proto impls with
  | Except.error e => Except.error e
  | Except.ok (method_names, py_methods) =>
      let mp := impl_proto_methods v proto method_names
      Except.ok ⟨impl_normal_methods py_methods, mp.1, mp.2⟩

/-- Modelled from the spec: the Buffer protocol family of the Protocol Catalog
(`defs::BUFFER` in `defs.rs`): the get/release buffer methods, each mapping to
a fixed slot, with no non-slot methods; the catalog itself is static and
versionless. -/
def BUFFER : Proto :=
  ⟨"Buffer",
   ["bf_getbuffer", "bf_releasebuffer"],
   [],
   [⟨["bf_getbuffer"], "Py_bf_getbuffer", "getbuffer"⟩,
    ⟨["bf_releasebuffer"], "Py_bf_releasebuffer", "releasebuffer"⟩]⟩

/-- Modelled from the spec: a number protocol family with a forward arithmetic
operation and its reflected form — the example given in the spec of two declared names
whose slot definitions target the same fixed slot id, and of a reflected
operation carried as a coexist-marked non-slot method. -/
def NUMBER : Proto :=
  ⟨"Number",
   ["__add__", "__radd__"],
   [⟨"__radd__", true⟩],
   [⟨["__add__", "__radd__"], "Py_nb_add", "add_radd"⟩,
    ⟨["__add__"], "Py_nb_add", "add"⟩,
    ⟨["__radd__"], "Py_nb_add", "radd"⟩]⟩




@[simp]
theorem contentsWrites_nil {V : Type} : contentsWrites ([] : List (WriteEvent V)) = [] := rfl

@[simp]
theorem contentsWrites_append {V : Type} (a b : List (WriteEvent V)) :
    contentsWrites (a ++ b) = contentsWrites a ++ contentsWrites b := by
  simp [contentsWrites]

@[simp]
theorem contentsWrites_level {V : Type} (f : BorrowFlag) (c : PyCellContents V) :
    contentsWrites [WriteEvent.borrow_flag f, WriteEvent.contents c] = [c] := rfl

/-- Claim C1: for every valid Initializer Chain, `PyClassInitializer::into_new_object`
either returns an error or succeeds having written, for every level, a contents
cell holding exactly the value supplied at construction together with a freshly
initialized thread checker and unset dict/weakref placeholders. -/
theorem claim_C1 {V : Type} (env : HostEnv) (c : PyClassInitializer V) :
    (∃ e, (PyClassInitializer.into_new_object env c).2 = some e) ∨
    ((PyClassInitializer.into_new_object env c).2 = none ∧
      contentsWrites (PyClassInitializer.into_new_object env c).1 =
        (levelValues c).map fun v =>
          ⟨v, ThreadCheckerState.fresh, DictSlot.unset, WeakRefSlot.unset⟩) := by
  induction c with
  | nativeBase =>
      cases h : (PyNativeTypeInitializer.into_new_object env).2 with
      | ok u =>
          right
          refine ⟨?_, ?_⟩
          · simp [PyClassInitializer.into_new_object, h]
          · simp [PyClassInitializer.into_new_object, levelValues]
      | error e =>
          exact Or.inl ⟨e, by simp [PyClassInitializer.into_new_object, h]⟩
  | pyclassInit v s ih =>
      cases hs : PyClassInitializer.into_new_object env s with
      | mk trace err =>
        cases err with
        | some e =>
            exact Or.inl ⟨e, by simp [PyClassInitializer.into_new_object, hs]⟩
        | none =>
            right
            rcases ih with ⟨e, he⟩ | ⟨hnone, hcw⟩
            · rw [hs] at he
              exact absurd he (by simp)
            · rw [hs] at hcw
              refine ⟨?_, ?_⟩
              · simp [PyClassInitializer.into_new_object, hs]
              · simp [PyClassInitializer.into_new_object, hs, levelValues, hcw]

/-- Claim C2 (failing-input evaluation): allocating from the concrete depth-2
chain `chain2` succeeds, but the Borrow-State Cell is written twice — once per
`PyClassInitializer` level, in line with the FIXME remark in the source — not
exactly once as the claim requires. -/
theorem claim_C2 :
    PyClassInitializer.into_new_object envObjectRootOk chain2 =
      ([WriteEvent.borrow_flag BorrowFlag.UNUSED,
        WriteEvent.contents ⟨0, ThreadCheckerState.fresh, DictSlot.unset, WeakRefSlot.unset⟩,
        WriteEvent.borrow_flag BorrowFlag.UNUSED,
        WriteEvent.contents ⟨1, ThreadCheckerState.fresh, DictSlot.unset, WeakRefSlot.unset⟩],
       none) ∧
    chainDepth chain2 = 2 ∧
    borrowFlagWrites (PyClassInitializer.into_new_object envObjectRootOk chain2).1 = 2 :=
  ⟨rfl, rfl, rfl⟩

/-- Claim C3: whenever chain allocation returns an error, no raw write at all
(in particular no contents-cell write) has been performed: the only fallible
step is the innermost host-native one, which precedes every write. -/
theorem claim_C3 {V : Type} (env : HostEnv) (c : PyClassInitializer V) (e : PyErrKind)
    (h : (PyClassInitializer.into_new_object env c).2 = some e) :
    (PyClassInitializer.into_new_object env c).1 = [] := by
  induction c with
  | nativeBase => rfl
  | pyclassInit v s ih =>
      cases hs : PyClassInitializer.into_new_object env s with
      | mk trace err =>
        cases err with
        | some e2 =>
            have hwhole :
                PyClassInitializer.into_new_object env (PyClassInitializer.pyclassInit v s) =
                  (trace, some e2) := by
              simp [PyClassInitializer.into_new_object, hs]
            rw [hwhole] at h ⊢
            simp only [] at h
            have he2 : e2 = e := by simpa using h
            subst he2
            have hfst := ih (by rw [hs])
            rw [hs] at hfst
            exact hfst
        | none =>
            have hwhole :
                PyClassInitializer.into_new_object env (PyClassInitializer.pyclassInit v s) =
                  (trace ++
                    [WriteEvent.borrow_flag BorrowFlag.UNUSED,
                     WriteEvent.contents
                       ⟨v, ThreadCheckerState.fresh, DictSlot.unset, WeakRefSlot.unset⟩],
                   none) := by
              simp [PyClassInitializer.into_new_object, hs]
            rw [hwhole] at h
            exact absurd h (by simp)

/-- Witness for claim C3 at a depth-1 chain in an environment whose allocator
returns null. -/
theorem claim_C3_witness :
    (PyClassInitializer.into_new_object envAllocFailed
       (PyClassInitializer.pyclassInit (0 : Nat) PyClassInitializer.nativeBase)).1 = [] :=
  claim_C3 envAllocFailed
    (PyClassInitializer.pyclassInit 0 PyClassInitializer.nativeBase)
    PyErrKind.apiCallFailed rfl

/-- Claim C4: construction of the host-native terminal base calls the allocator
when the native root is the universal object root (null result reported as an
allocation error), otherwise invokes the `tp_new` slot of the base with no arguments
when present (null result again an allocation error) and fails with the
`base type without tp_new` error when the slot is absent; the result is `Ok`
exactly when a non-null pointer was produced. -/
theorem claim_C4 (env : HostEnv) :
    (env.baseIsObjectRoot = true →
      PyNativeTypeInitializer.into_new_object env =
        ([NativeCall.allocCall],
         if env.allocReturnsNull then Except.error PyErrKind.apiCallFailed
         else Except.ok ())) ∧
    (env.baseIsObjectRoot = false → env.tp_new = none →
      PyNativeTypeInitializer.into_new_object env =
        ([], Except.error (PyErrKind.typeError "base type without tp_new"))) ∧
    (∀ b : Bool, env.baseIsObjectRoot = false → env.tp_new = some b →
      PyNativeTypeInitializer.into_new_object env =
        ([NativeCall.tpNewCall],
         if b then Except.ok () else Except.error PyErrKind.apiCallFailed)) ∧
    resultIsOk (PyNativeTypeInitializer.into_new_object env).2 = nonNullProduced env := by
  obtain ⟨root, nul, tpn⟩ := env
  cases root <;> cases nul <;> rcases tpn with _ | b <;> try cases b
  all_goals
    refine ⟨?_, ?_, ?_, ?_⟩ <;> intros <;>
      simp_all [PyNativeTypeInitializer.into_new_object, resultIsOk, nonNullProduced]

/-- Witness for claim C4 at an environment whose non-object-root native base has
no `tp_new` slot. -/
theorem claim_C4_witness :
    PyNativeTypeInitializer.into_new_object envNoTpNew =
      ([], Except.error (PyErrKind.typeError "base type without tp_new")) :=
  (claim_C4 envNoTpNew).2.1 rfl rfl

theorem contains_eq_of_perm {l1 l2 : List String} (h : l1.Perm l2) (a : String) :
    l1.contains a = l2.contains a := by
  simp only [List.contains, List.elem_eq_mem]
  exact decide_eq_decide.mpr h.mem_iff

theorem slotDefsFor_congr (proto : Proto) {n1 n2 : List String} (h : n1.Perm n2) :
    proto.slotDefsFor n1 = proto.slotDefsFor n2 := by
  have hfun : (fun n => n1.contains n) = fun n => n2.contains n :=
    funext fun a => contains_eq_of_perm h a
  unfold Proto.slotDefsFor
  simp only [hfun]

theorem implProtoMethods_congr (v : PythonVersion) (proto : Proto)
    {n1 n2 : List String} (h : n1.Perm n2) :
    impl_proto_methods v proto n1 = impl_proto_methods v proto n2 := by
  unfold impl_proto_methods
  have hemp : n1.isEmpty = n2.isEmpty := by
    cases n1 with
    | nil => rw [h.symm.eq_nil]
    | cons a l =>
        cases n2 with
        | nil => exact absurd h.eq_nil (by simp)
        | cons b m => rfl
  rw [hemp, slotDefsFor_congr proto h]

theorem collectMethods_names (proto : Proto) :
    ∀ (impls : List DeclMethod) (names : List String) (pys : List MethodTableEntry),
      collectMethods proto impls = Except.ok (names, pys) →
      names = (impls.map DeclMethod.name).filter fun n => proto.proto_methods.contains n := by
  intro impls
  induction impls with
  | nil =>
      intro names pys h
      simp only [collectMethods, Except.ok.injEq, Prod.mk.injEq] at h
      simp [← h.1]
  | cons met rest ih =>
      intro names pys h
      cases hf : proto.py_methods.find? fun m => m.name == met.name with
      | some m =>
          cases hcr : collectMethods proto rest with
          | error e =>
              simp only [collectMethods, hf, hcr] at h
              by_cases hr : met.has_receiver = true
              · rw [if_pos hr] at h; exact absurd h (by simp)
              · rw [if_neg hr] at h; exact absurd h (by simp)
          | ok pr =>
              obtain ⟨ns, ps⟩ := pr
              simp only [collectMethods, hf, hcr] at h
              by_cases hr : met.has_receiver = true
              · rw [if_pos hr] at h
                simp only [Except.ok.injEq, Prod.mk.injEq] at h
                rw [← h.1, ih ns ps hcr]
                simp only [List.map_cons, List.filter_cons]
                by_cases hc : met.name ∈ proto.proto_methods <;> simp [hc]
              · rw [if_neg hr] at h; exact absurd h (by simp)
      | none =>
          cases hcr : collectMethods proto rest with
          | error e =>
              simp only [collectMethods, hf, hcr] at h
              exact absurd h (by simp)
          | ok pr =>
              obtain ⟨ns, ps⟩ := pr
              simp only [collectMethods, hf, hcr] at h
              simp only [Except.ok.injEq, Prod.mk.injEq] at h
              rw [← h.1, ih ns ps hcr]
              simp only [List.map_cons, List.filter_cons]
              by_cases hc : met.name ∈ proto.proto_methods <;> simp [hc]

/-- Claim C5 (amended): the buffer side-table is emitted exactly when the
detected host version is at or below the 3.9 cutoff, the family is Buffer, and
a slot array is emitted — so at or below the cutoff the side-table is emitted
in addition to the folded slot entries, never instead of them, and above the
cutoff only the folded slot entries are emitted. -/
theorem claim_C5 (v : PythonVersion) (proto : Proto) (impls : List DeclMethod)
    (out : ProtoOutput) (h : impl_proto_impl v proto impls = Except.ok out) :
    out.buffer_procs =
      (PythonVersion.le v PY39 && proto.name == "Buffer" && out.slots_array.isSome) := by
  unfold impl_proto_impl at h
  cases hc : collectMethods proto impls with
  | error e => rw [hc] at h; cases h
  | ok pr =>
      obtain ⟨names, pys⟩ := pr
      rw [hc] at h
      cases h
      show (impl_proto_methods v proto names).2 =
        (_ && (impl_proto_methods v proto names).1.isSome)
      unfold impl_proto_methods
      by_cases h1 : names.isEmpty = true
      · simp [h1]
      · simp only [h1, Bool.false_eq_true, if_false]
        by_cases h2 :
            ((proto.slotDefsFor names).map fun d =>
              SlotEntry.mk d.slot d.slot_impl).isEmpty = true <;>
          simp [h2]

/-- Counterexample for claim C5 as stated: on host version 3.8 (at the cutoff)
the Buffer family with a declared getbuffer method emits both the dedicated
side-table and the folded slot entry — the two representations are emitted
simultaneously. -/
theorem claim_C5_counterexample :
    impl_proto_impl ⟨3, 8⟩ BUFFER [⟨"bf_getbuffer", true⟩] =
      Except.ok ⟨none, some [⟨"Py_bf_getbuffer", "getbuffer"⟩], true⟩ := rfl

/-- Witness for the amended claim C5 at a concrete below-cutoff input. -/
theorem claim_C5_witness :
    (ProtoOutput.mk none (some [SlotEntry.mk "Py_bf_releasebuffer" "releasebuffer"])
        true).buffer_procs =
      (PythonVersion.le ⟨3, 8⟩ PY39 && BUFFER.name == "Buffer" &&
        (ProtoOutput.mk none (some [SlotEntry.mk "Py_bf_releasebuffer" "releasebuffer"])
            true).slots_array.isSome) :=
  claim_C5 ⟨3, 8⟩ BUFFER [⟨"bf_releasebuffer", true⟩] _ rfl

/-- Claim C6 (amended): a declared method name found in neither the
slot catalog of the family nor its non-slot-method catalog is silently ignored by table
generation — it contributes to no emitted array and raises no error; rejection
of unknown names is not performed by the generator. -/
theorem claim_C6 (v : PythonVersion) (proto : Proto) (met : DeclMethod)
    (impls : List DeclMethod)
    (h1 : proto.proto_methods.contains met.name = false)
    (h2 : proto.py_methods.find? (fun m => m.name == met.name) = none) :
    impl_proto_impl v proto (met :: impls) = impl_proto_impl v proto impls := by
  have hcol : collectMethods proto (met :: impls) = collectMethods proto impls := by
    simp only [collectMethods, h2, h1]
    cases hr : collectMethods proto impls with
    | error e => simp
    | ok pr => obtain ⟨names, pys⟩ := pr; simp
  unfold impl_proto_impl
  rw [hcol]

/-- Counterexample for claim C6 as stated: a declared name unknown to the
Buffer family produces no binding-definition-time error — generation succeeds
with the name silently dropped and nothing emitted. -/
theorem claim_C6_counterexample :
    impl_proto_impl ⟨3, 10⟩ BUFFER [⟨"no_such_protocol_method", true⟩] =
      Except.ok ⟨none, none, false⟩ := rfl

/-- Witness for the amended claim C6 at a concrete unknown declared name. -/
theorem claim_C6_witness :
    impl_proto_impl ⟨3, 10⟩ BUFFER
        [DeclMethod.mk "unknown_item" true, DeclMethod.mk "bf_getbuffer" true] =
      impl_proto_impl ⟨3, 10⟩ BUFFER [DeclMethod.mk "bf_getbuffer" true] :=
  claim_C6 ⟨3, 10⟩ BUFFER ⟨"unknown_item", true⟩ [⟨"bf_getbuffer", true⟩] rfl rfl

theorem dedupBySlot_spec :
    ∀ (l : List SlotDef) (seen : List String),
      ((dedupBySlot seen l).map SlotDef.slot).Nodup ∧
      ∀ s ∈ (dedupBySlot seen l).map SlotDef.slot, seen.contains s = false := by
  intro l
  induction l with
  | nil => intro seen; simp [dedupBySlot]
  | cons d rest ih =>
      intro seen
      cases hc : seen.contains d.slot with
      | true =>
          have hrec := ih seen
          simp only [dedupBySlot, hc, if_true]
          exact hrec
      | false =>
          obtain ⟨hnd, hni⟩ := ih (d.slot :: seen)
          simp only [dedupBySlot, hc, Bool.false_eq_true, if_false, List.map_cons]
          refine ⟨List.Nodup.cons ?_ hnd, ?_⟩
          · intro hmem
            have := hni d.slot hmem
            simp [List.contains_cons] at this
          · intro s hs
            rcases List.mem_cons.mp hs with rfl | hs2
            · exact hc
            · have := hni s hs2
              simp only [List.contains_cons, Bool.or_eq_false_iff] at this
              exact this.2

/-- Claim C7 (amended): a second declared name mapping to an already-provided
slot id is not rejected — generation succeeds with no binding-definition-time
error — but the emitted slot array never carries two entries for one slot id:
the catalog filter keys entries by slot id and the first matching definition
wins. -/
theorem claim_C7 (v : PythonVersion) (proto : Proto) (impls : List DeclMethod)
    (out : ProtoOutput) (arr : List SlotEntry)
    (h : impl_proto_impl v proto impls = Except.ok out)
    (ha : out.slots_array = some arr) :
    (arr.map SlotEntry.slot).Nodup := by
  unfold impl_proto_impl at h
  cases hc : collectMethods proto impls with
  | error e => rw [hc] at h; cases h
  | ok pr =>
      obtain ⟨names, pys⟩ := pr
      rw [hc] at h
      cases h
      unfold impl_proto_methods at ha
      by_cases h1 : names.isEmpty = true
      · rw [if_pos h1] at ha; cases ha
      · rw [if_neg h1] at ha
        by_cases h2 :
            ((proto.slotDefsFor names).map fun d =>
              SlotEntry.mk d.slot d.slot_impl).isEmpty = true
        · rw [if_pos h2] at ha; cases ha
        · rw [if_neg h2] at ha
          have harr :
              arr = (proto.slotDefsFor names).map fun d =>
                SlotEntry.mk d.slot d.slot_impl := by
            have := Option.some.inj ha
            exact this.symm
          subst harr
          have hnodup := (dedupBySlot_spec
            (proto.slot_defs.filter fun d =>
              d.proto_names.all fun n => names.contains n) []).1
          simpa [Proto.slotDefsFor, List.map_map, Function.comp] using hnodup

/-- Counterexample for claim C7 as stated: in a number family whose forward and
reflected addition both target the `Py_nb_add` slot, declaring both names is
not rejected — slot-table generation returns successfully (emitting a single
deduplicated entry) instead of failing with a binding-definition-time error. -/
theorem claim_C7_counterexample :
    impl_proto_impl ⟨3, 10⟩ NUMBER [⟨"__add__", true⟩, ⟨"__radd__", true⟩] =
      Except.ok
        ⟨some [⟨"__radd__", true⟩], some [⟨"Py_nb_add", "add_radd"⟩], false⟩ := rfl

/-- Witness for the amended claim C7 at the concrete dual-name input. -/
theorem claim_C7_witness :
    (([SlotEntry.mk "Py_nb_add" "add_radd"]).map SlotEntry.slot).Nodup :=
  claim_C7 ⟨3, 10⟩ NUMBER [⟨"__add__", true⟩, ⟨"__radd__", true⟩]
    ⟨some [⟨"__radd__", true⟩], some [⟨"Py_nb_add", "add_radd"⟩], false⟩
    [⟨"Py_nb_add", "add_radd"⟩] rfl rfl

/-- Claim C8: an emitted method-table array and an emitted slot array are never
empty (producing no descriptors or no slot entries suppresses the respective
array), and an empty declared-name set yields no emitted array at all. -/
theorem claim_C8 (v : PythonVersion) (proto : Proto) :
    (∀ impls out, impl_proto_impl v proto impls = Except.ok out →
       out.methods_array ≠ some [] ∧ out.slots_array ≠ some []) ∧
    impl_proto_impl v proto [] = Except.ok ⟨none, none, false⟩ := by
  constructor
  · intro impls out h
    unfold impl_proto_impl at h
    cases hc : collectMethods proto impls with
    | error e => rw [hc] at h; cases h
    | ok pr =>
        obtain ⟨names, pys⟩ := pr
        rw [hc] at h
        cases h
        constructor
        · show impl_normal_methods pys ≠ some []
          cases pys with
          | nil => simp [impl_normal_methods]
          | cons a as => simp [impl_normal_methods]
        · show (impl_proto_methods v proto names).1 ≠ some []
          unfold impl_proto_methods
          by_cases h1 : names.isEmpty = true
          · simp [h1]
          · simp only [h1, Bool.false_eq_true, if_false]
            by_cases h2 :
                ((proto.slotDefsFor names).map fun d =>
                  SlotEntry.mk d.slot d.slot_impl).isEmpty = true
            · simp [h2]
            · simp only [h2, Bool.false_eq_true, if_false, ne_eq, Option.some.injEq]
              intro hcontra
              rw [hcontra] at h2
              exact h2 rfl
  · rfl

/-- Witness for claim C8 at a concrete Buffer input above the cutoff. -/
theorem claim_C8_witness :
    (ProtoOutput.mk none (some [SlotEntry.mk "Py_bf_getbuffer" "getbuffer"])
        false).methods_array ≠ some [] ∧
    (ProtoOutput.mk none (some [SlotEntry.mk "Py_bf_getbuffer" "getbuffer"])
        false).slots_array ≠ some [] :=
  (claim_C8 ⟨3, 10⟩ BUFFER).1 [⟨"bf_getbuffer", true⟩] _ rfl

/-- Claim C9: slot-table generation is a deterministic pure function of the
declared-name set and the target host version — the embedding is a pure
function, and reordering the declared methods leaves the emitted slot array
(and the buffer side-table decision) unchanged, because slots are keyed by the
catalog rather than by declaration order. -/
theorem claim_C9 (v : PythonVersion) (proto : Proto)
    (impls1 impls2 : List DeclMethod) (hperm : impls1.Perm impls2)
    (out1 out2 : ProtoOutput)
    (h1 : impl_proto_impl v proto impls1 = Except.ok out1)
    (h2 : impl_proto_impl v proto impls2 = Except.ok out2) :
    out1.slots_array = out2.slots_array ∧ out1.buffer_procs = out2.buffer_procs := by
  unfold impl_proto_impl at h1 h2
  cases hc1 : collectMethods proto impls1 with
  | error e => rw [hc1] at h1; cases h1
  | ok pr1 =>
      obtain ⟨names1, pys1⟩ := pr1
      rw [hc1] at h1
      cases hc2 : collectMethods proto impls2 with
      | error e => rw [hc2] at h2; cases h2
      | ok pr2 =>
          obtain ⟨names2, pys2⟩ := pr2
          rw [hc2] at h2
          cases h1
          cases h2
          have e1 := collectMethods_names proto impls1 names1 pys1 hc1
          have e2 := collectMethods_names proto impls2 names2 pys2 hc2
          have hp : names1.Perm names2 := by
            rw [e1, e2]
            exact (hperm.map DeclMethod.name).filter _
          have hcongr := implProtoMethods_congr v proto hp
          exact ⟨by rw [hcongr], by rw [hcongr]⟩

/-- Witness for claim C9 at a concrete pair of reordered Buffer declarations. -/
theorem claim_C9_witness :
    (ProtoOutput.mk none
        (some [SlotEntry.mk "Py_bf_getbuffer" "getbuffer",
               SlotEntry.mk "Py_bf_releasebuffer" "releasebuffer"]) false).slots_array =
      (ProtoOutput.mk none
        (some [SlotEntry.mk "Py_bf_getbuffer" "getbuffer",
               SlotEntry.mk "Py_bf_releasebuffer" "releasebuffer"]) false).slots_array ∧
    (ProtoOutput.mk none
        (some [SlotEntry.mk "Py_bf_getbuffer" "getbuffer",
               SlotEntry.mk "Py_bf_releasebuffer" "releasebuffer"]) false).buffer_procs =
      (ProtoOutput.mk none
        (some [SlotEntry.mk "Py_bf_getbuffer" "getbuffer",
               SlotEntry.mk "Py_bf_releasebuffer" "releasebuffer"]) false).buffer_procs :=
  claim_C9 ⟨3, 10⟩ BUFFER
    [⟨"bf_getbuffer", true⟩, ⟨"bf_releasebuffer", true⟩]
    [⟨"bf_releasebuffer", true⟩, ⟨"bf_getbuffer", true⟩]
    (List.Perm.swap (DeclMethod.mk "bf_releasebuffer" true)
      (DeclMethod.mk "bf_getbuffer" true) [])
    _ _ rfl rfl

theorem collectMethods_receiver_error (proto : Proto) (met : DeclMethod)
    (hfind : (proto.py_methods.find? fun m => m.name == met.name).isSome = true)
    (hrec : met.has_receiver = false) :
    ∀ impls : List DeclMethod, met ∈ impls →
      collectMethods proto impls =
        Except.error "expected method with receiver for #[pyproto] method" := by
  intro impls
  induction impls with
  | nil => intro hmem; cases hmem
  | cons a rest ih =>
      intro hmem
      rcases List.mem_cons.mp hmem with rfl | hmem2
      · obtain ⟨m, hm⟩ := Option.isSome_iff_exists.mp hfind
        simp only [collectMethods, hm]
        rw [if_neg (by simp [hrec])]
      · cases hf : proto.py_methods.find? fun m => m.name == a.name with
        | some m =>
            by_cases hr : a.has_receiver = true
            · simp only [collectMethods, hf, ih hmem2]
              rw [if_pos hr]
            · simp only [collectMethods, hf]
              rw [if_neg hr]
        | none => simp only [collectMethods, hf, ih hmem2]

/-- Claim C10: a declared item whose name the catalog maps to a non-slot
(ordinary) method but whose parsed function takes no self receiver makes
`build_py_proto` fail with the `expected method with receiver for #[pyproto]
method` binding-definition-time error, so no tables are emitted for the
type. -/
theorem claim_C10 (v : PythonVersion) (proto : Proto) (impls : List DeclMethod)
    (met : DeclMethod) (hmem : met ∈ impls)
    (hfind : (proto.py_methods.find? fun m => m.name == met.name).isSome = true)
    (hrec : met.has_receiver = false) :
    impl_proto_impl v proto impls =
      Except.error "expected method with receiver for #[pyproto] method" := by
  unfold impl_proto_impl
  rw [collectMethods_receiver_error proto met hfind hrec impls hmem]

/-- Witness for claim C10 at a concrete reflected-addition method declared
without a receiver. -/
theorem claim_C10_witness :
    impl_proto_impl ⟨3, 10⟩ NUMBER [DeclMethod.mk "__radd__" false] =
      Except.error "expected method with receiver for #[pyproto] method" :=
  claim_C10 ⟨3, 10⟩ NUMBER [⟨"__radd__", false⟩] ⟨"__radd__", false⟩
    (List.mem_cons_self _ _) rfl rfl
